import Mathlib

/-!
Verification development for the KIVI voxel-simulation core.

The definitions below are a shallow embedding of the JavaScript sources
`src/grid.js`, `src/collision.js` (which also carries `Scene.update`, the
per-tick simulation loop) and `src/physics.js`.  Continuous quantities
(world positions, velocities, thresholds) are modelled as rationals, except
for the friction analysis which needs a square root and is carried out over
the reals in a separate namespace.  The JavaScript `Map` keyed by the string
`"x,y,z"` is modelled as an association list keyed by the integer triple
itself (the string encoding is injective on integer triples).
-/

namespace Kivi

/-- World-space vector with rational coordinates (mirrors the plain
`{x, y, z}` objects used throughout the sources). -/
structure Vec3 where
  x : ℚ
  y : ℚ
  z : ℚ
deriving DecidableEq

/-- Cell key: the integer grid triple (models the `"x,y,z"` string key of
`Grid.getCellKey`). -/
abbrev CellKey := ℤ × ℤ × ℤ

/-- One entry of the occupancy store; the value is the occupant's block id
(the JS map stores the block object itself; only its identity matters
here). -/
abbrev CellEntry := CellKey × ℕ

/-- JavaScript `Map.set` on an association list: replace the value of the
first (and, for well-formed stores, only) entry with the given key, or
append a fresh entry when the key is absent. -/
def cellsSet : List CellEntry → CellKey → ℕ → List CellEntry
  | [], k, v => [(k, v)]
  | e :: rest, k, v =>
      if e.1 = k then (k, v) :: rest else e :: cellsSet rest k v

/-- Keys of an occupancy store. -/
def cellKeys (l : List CellEntry) : List CellKey := l.map Prod.fst

/-- The grid of `src/grid.js`: size, cell size, and the occupancy store. -/
structure Grid where
  size : ℕ
  cellSize : ℚ
  cells : List CellEntry
deriving DecidableEq

/-- Offset used to center the grid at the origin:
`Math.floor(this.size / 2)`. -/
def Grid.centerOffset (g : Grid) : ℕ := g.size / 2

/-- Grid to world conversion (`Grid.gridToWorld`). -/
def Grid.gridToWorld (g : Grid) (gx gy gz : ℤ) : Vec3 :=
  ⟨((gx : ℚ) - (g.centerOffset : ℚ)) * g.cellSize,
   (gy : ℚ) * g.cellSize,
   ((gz : ℚ) - (g.centerOffset : ℚ)) * g.cellSize⟩

/-- World to grid conversion (`Grid.worldToGrid`); JavaScript `Math.round`
is `round` on rationals (both are floor of the argument plus one half). -/
def Grid.worldToGrid (g : Grid) (x y z : ℚ) : CellKey :=
  (round (x / g.cellSize) + (g.centerOffset : ℤ),
   round (y / g.cellSize),
   round (z / g.cellSize) + (g.centerOffset : ℤ))

/-- Bounds check of `Grid.isInBounds`: X and Z in `[0, size)`, Y only
required non-negative. -/
def Grid.isInBounds (g : Grid) (gx gy gz : ℤ) : Bool :=
  decide (0 ≤ gx ∧ gx < (g.size : ℤ) ∧ 0 ≤ gy ∧ 0 ≤ gz ∧ gz < (g.size : ℤ))

/-- Occupancy query (`Grid.isOccupied`, i.e. `cells.has(key)`). -/
def Grid.isOccupied (g : Grid) (gx gy gz : ℤ) : Bool :=
  g.cells.any (fun e => decide (e.1 = (gx, gy, gz)))

/-- Lookup (`Grid.getCell`, i.e. `cells.get(key)`). -/
def Grid.getCell (g : Grid) (gx gy gz : ℤ) : Option ℕ :=
  (g.cells.find? (fun e => decide (e.1 = (gx, gy, gz)))).map (fun e => e.2)

/-- Mark a cell occupied (`Grid.setCell`, i.e. `cells.set(key, object)`). -/
def Grid.setCell (g : Grid) (gx gy gz : ℤ) (v : ℕ) : Grid :=
  { g with cells := cellsSet g.cells (gx, gy, gz) v }

/-- Clear a cell (`Grid.clearCell`, i.e. `cells.delete(key)`). -/
def Grid.clearCell (g : Grid) (gx gy gz : ℤ) : Grid :=
  { g with cells := g.cells.filter (fun e => !decide (e.1 = (gx, gy, gz))) }

/-- The object returned by a successful `Grid.placeBlock` call: the created
block's id, world position and remembered grid position. -/
structure PlacedBlock where
  blockId : ℕ
  position : Vec3
  gridPosition : CellKey
deriving DecidableEq

/-- Block placement (`Grid.placeBlock`): out-of-bounds coordinates yield a
null result (plus a console warning, the only diagnostic this function can
emit); otherwise the block is created at the cell's world position with the
vertical `+0.5` centering, and registered in the occupancy store unless
`options.trackInGrid === false`. -/
def Grid.placeBlock (g : Grid) (blockId : ℕ) (gx gy gz : ℤ)
    (trackInGrid : Bool) : Option PlacedBlock × Grid :=
  if g.isInBounds gx gy gz then
    let w := g.gridToWorld gx gy gz
    let block : PlacedBlock := ⟨blockId, ⟨w.x, w.y + 1/2, w.z⟩, (gx, gy, gz)⟩
    if trackInGrid then (some block, g.setCell gx gy gz blockId)
    else (some block, g)
  else (none, g)

/-- World-space X/Z bounds derived from the grid
(`Scene.calculateGridBounds`). -/
structure Bounds where
  minX : ℚ
  maxX : ℚ
  minZ : ℚ
  maxZ : ℚ
deriving DecidableEq

/-- The slice of `Scene` state the collision core reads: the grid and the
optional world bounds (`null` when the `boundary: false` option is set). -/
structure Scene where
  grid : Grid
  gridBounds : Option Bounds

/-- Inclusive integer range `[lo, hi]` as a list (the iteration space of the
JavaScript `for (let g = lo; g <= hi; g++)` loops); empty when `hi < lo`. -/
def intRange (lo hi : ℤ) : List ℤ :=
  (List.range (hi + 1 - lo).toNat).map (fun i => lo + (i : ℤ))

/-- AABB-versus-grid collision test (`checkCollision` in
`src/collision.js`): the box `position ± colliderSize/2` is converted to the
inclusive range of grid cells it touches (X/Z with the `centerOffset + 0.5`
correction, Y by plain floor; with `excludeGround` the lower Y bound is
raised to `floor(position.y)`), and the test is whether any cell in the
cross-product range is occupied. -/
def checkCollision (scene : Scene) (position : Vec3) (colliderSize : Vec3)
    (excludeGround : Bool) : Bool :=
  let c : ℚ := scene.grid.centerOffset
  let minGridX := ⌊position.x - colliderSize.x / 2 + c + 1/2⌋
  let maxGridX := ⌊position.x + colliderSize.x / 2 + c + 1/2⌋
  let minGridY :=
    if excludeGround then ⌊position.y⌋ else ⌊position.y - colliderSize.y / 2⌋
  let maxGridY := ⌊position.y + colliderSize.y / 2⌋
  let minGridZ := ⌊position.z - colliderSize.z / 2 + c + 1/2⌋
  let maxGridZ := ⌊position.z + colliderSize.z / 2 + c + 1/2⌋
  (intRange minGridX maxGridX).any fun gx =>
    (intRange minGridY maxGridY).any fun gy =>
      (intRange minGridZ maxGridZ).any fun gz =>
        scene.grid.isOccupied gx gy gz

/-- The downward column scan of `getGroundY`: starting at the given cell,
return `y + 1` for the first occupied cell going down, else continue; `0`
when the scan passes `y = 0` without a hit.  The result is an integer
height (the source always returns `y + 1` or `0`). -/
def scanDown (occ : ℕ → Bool) : ℕ → ℤ
  | 0 => if occ 0 then 1 else 0
  | n + 1 => if occ (n + 1) then ((n : ℤ) + 1) + 1 else scanDown occ n

/-- X index of the grid column `getGroundY` scans. -/
def groundColumnX (scene : Scene) (position : Vec3) : ℤ :=
  ⌊position.x + (scene.grid.centerOffset : ℚ) + 1/2⌋

/-- Z index of the grid column `getGroundY` scans. -/
def groundColumnZ (scene : Scene) (position : Vec3) : ℤ :=
  ⌊position.z + (scene.grid.centerOffset : ℚ) + 1/2⌋

/-- Ground surface height (`getGroundY` in `src/collision.js`): scans the
entity's X/Z column downward from `Math.max(Math.floor(position.y), 10)`
(which is never negative) to 0 and returns `y + 1` for the first occupied
cell, or 0 when none is found. -/
def getGroundY (scene : Scene) (position : Vec3) : ℚ :=
  (scanDown
    (fun y => scene.grid.isOccupied (groundColumnX scene position) (y : ℤ)
      (groundColumnZ scene position))
    (max ⌊position.y⌋ 10).toNat : ℤ)

/-- Modelled from the claim's words for C2: the same downward column scan
but starting from `min(floor(position.y), 10)` instead of the source's
`max`; a negative start means the scan range is empty and the fallback 0 is
returned. -/
def getGroundYClaimMin (scene : Scene) (position : Vec3) : ℚ :=
  let s : ℤ := min ⌊position.y⌋ 10
  if s < 0 then 0
  else
    (scanDown
      (fun y => scene.grid.isOccupied (groundColumnX scene position) (y : ℤ)
        (groundColumnZ scene position))
      s.toNat : ℤ)

/-- Groundedness test (`checkGrounded`): the feet height
`position.y - colliderSize.y/2` is within 0.2 of the ground surface. -/
def checkGrounded (scene : Scene) (position : Vec3) (colliderSize : Vec3) :
    Bool :=
  let groundY := getGroundY scene position
  let feetY := position.y - colliderSize.y / 2
  decide (|feetY - groundY| < 0.2)

/-- World-bounds violation test on X/Z (`checkOutOfBounds`); always false
when the scene has no bounds. -/
def checkOutOfBounds (scene : Scene) (position : Vec3) (size : Vec3) : Bool :=
  match scene.gridBounds with
  | none => false
  | some b =>
      decide (position.x - size.x / 2 < b.minX ∨ position.x + size.x / 2 > b.maxX
        ∨ position.z - size.z / 2 < b.minZ ∨ position.z + size.z / 2 > b.maxZ)

/-- Clamp X/Z into the world bounds (`clampToBounds`); Y is untouched and a
scene without bounds clamps nothing. -/
def clampToBounds (scene : Scene) (position : Vec3) (size : Vec3) : Vec3 :=
  match scene.gridBounds with
  | none => position
  | some b =>
      ⟨max (b.minX + size.x / 2) (min (b.maxX - size.x / 2) position.x),
       position.y,
       max (b.minZ + size.z / 2) (min (b.maxZ - size.z / 2) position.z)⟩

/-- Slide resolution (`resolveCollision`): when the tentative position
collides, each axis is tested independently with a candidate equal to
`lastPosition` except for that one axis taken from the tentative position
(the candidates do not depend on the reverts already applied, because each
candidate reads only its own axis from the tentative position), and a
colliding candidate reverts that axis; afterwards an out-of-bounds position
is clamped.  Returns whether any correction occurred together with the
resolved position. -/
def resolveCollision (scene : Scene) (position lastPosition : Vec3)
    (size : Vec3) (excludeGround : Bool) : Bool × Vec3 :=
  let hadP1 :=
    if checkCollision scene position size excludeGround then
      (true,
        (⟨if checkCollision scene ⟨position.x, lastPosition.y, lastPosition.z⟩
              size excludeGround
           then lastPosition.x else position.x,
          if checkCollision scene ⟨lastPosition.x, position.y, lastPosition.z⟩
              size excludeGround
           then lastPosition.y else position.y,
          if checkCollision scene ⟨lastPosition.x, lastPosition.y, position.z⟩
              size excludeGround
           then lastPosition.z else position.z⟩ : Vec3))
    else (false, position)
  if checkOutOfBounds scene hadP1.2 size then
    (true, clampToBounds scene hadP1.2 size)
  else hadP1

/-- Example scene for C2: a 10-grid whose only block sits at cell
(5, 5, 5), i.e. in the column above the world origin, well above an entity
at height 2. -/
def overhangScene : Scene :=
  ⟨⟨10, 1, [((5, 5, 5), 1)]⟩, none⟩

/-- Example scene for C5: a 10-grid with a single wall block at cell
(7, 0, 5) (world X ∈ [1.5, 2.5] at Z ≈ 0), with the standard derived
bounds. -/
def wallScene : Scene :=
  ⟨⟨10, 1, [((7, 0, 5), 1)]⟩, some ⟨-(11/2), 9/2, -(11/2), 9/2⟩⟩

/-- Per-entity velocity state and configuration of `VelocityPhysics`
(`src/physics.js`).  The constructor defaults are `maxSpeed 3`,
`acceleration 15`, `friction 8`, `gravity 0`, `maxFallSpeed -20`. -/
structure PhysicsState where
  velocity : Vec3
  maxSpeed : ℚ
  acceleration : ℚ
  friction : ℚ
  gravity : ℚ
  maxFallSpeed : ℚ
deriving DecidableEq

/-- `VelocityPhysics.updatePosition`: when gravity is configured (nonzero)
and requested, integrate it into `velocity.y` clamped at the terminal fall
speed; then displace the position by `velocity * delta` on all three axes.
Returns the updated physics state and position. -/
def updatePosition (p : PhysicsState) (position : Vec3) (delta : ℚ)
    (applyGravity : Bool) : PhysicsState × Vec3 :=
  let vy :=
    if p.gravity ≠ 0 ∧ applyGravity = true then
      let vy0 := p.velocity.y + p.gravity * delta
      if vy0 < p.maxFallSpeed then p.maxFallSpeed else vy0
    else p.velocity.y
  let v : Vec3 := ⟨p.velocity.x, vy, p.velocity.z⟩
  ({ p with velocity := v },
   ⟨position.x + v.x * delta, position.y + v.y * delta,
    position.z + v.z * delta⟩)

/-- The slice of a game object the simulation loop reads and writes
(`Scene.update` in the second scene orchestrator of the sources): world
position, optional physics component, optional collider (its size),
grounded flag, and the loop-managed `lastValidPosition` (absent until the
first collider step runs). -/
structure GameObject where
  position : Vec3
  physics : Option PhysicsState
  collider : Option Vec3
  isGrounded : Bool
  lastValidPosition : Option Vec3
deriving DecidableEq

/-- The part of a game object a script hook may overwrite (the sample
scripts mutate position, velocity and the grounded flag; the loop-internal
`lastValidPosition` and the component configuration are not script
surface). -/
structure ScriptEffect where
  position : Vec3
  velocity : Vec3
  isGrounded : Bool

/-- A script hook: either yields a new script-visible state or throws.  The
loop in the source has no try/catch around hook calls. -/
abbrev HookFn := GameObject → Except Unit ScriptEffect

/-- The optional `onUpdate`/`onLateUpdate` hooks of one game object's
script instance. -/
structure Hooks where
  onUpdate : Option HookFn
  onLateUpdate : Option HookFn

/-- A game object with no script. -/
def noHooks : Hooks := ⟨none, none⟩

/-- Copy a hook's effect back onto the game object. -/
def applyEffect (g : GameObject) (e : ScriptEffect) : GameObject :=
  { g with
    position := e.position,
    isGrounded := e.isGrounded,
    physics := g.physics.map (fun p => { p with velocity := e.velocity }) }

/-- Run an optional hook: a missing hook is a no-op, a throwing hook leaves
the object as it was and reports the error (first component `true`). -/
def runHook (h : Option HookFn) (g : GameObject) : Bool × GameObject :=
  match h with
  | none => (false, g)
  | some f =>
      match f g with
      | Except.ok e => (false, applyEffect g e)
      | Except.error _ => (true, g)

/-- The physics phase of the loop: if the object has a physics component,
integrate with `applyGravity = !gameObject.isGrounded` — the grounded flag
as stored on the entity when this phase runs. -/
def physicsStep (g : GameObject) (delta : ℚ) : GameObject :=
  match g.physics with
  | none => g
  | some p =>
      let r := updatePosition p g.position delta (!g.isGrounded)
      { g with physics := some r.1, position := r.2 }

/-- The ground-snap tail of the collider phase: if the object has physics
with `velocity.y ≤ 0` and is grounded at its (resolved) position, and the
distance from `position.y` to `targetY = groundY + size.y/2` is below 0.1,
set `position.y = targetY`, zero `velocity.y` (`stopVertical`) and force
the grounded flag. -/
def groundSnap (scene : Scene) (size : Vec3) (g : GameObject) : GameObject :=
  match g.physics with
  | none => g
  | some p =>
      if p.velocity.y ≤ 0 then
        if checkGrounded scene g.position size then
          let targetY := getGroundY scene g.position + size.y / 2
          if |g.position.y - targetY| < 0.1 then
            { g with
              position := ⟨g.position.x, targetY, g.position.z⟩,
              physics := some { p with velocity := ⟨p.velocity.x, 0, p.velocity.z⟩ },
              isGrounded := true }
          else g
        else g
      else g

/-- The collider phase of the loop, in source order: recompute the grounded
flag at the current (post-integration) position, initialize
`lastValidPosition` to the current position if absent, resolve with
`excludeGround` equal to that fresh grounded sample, zero the velocity on
every axis whose position changed during resolution, store the resolved
position as `lastValidPosition`, then apply the ground snap. -/
def colliderStep (scene : Scene) (g0 : GameObject) : GameObject :=
  match g0.collider with
  | none => g0
  | some size =>
      let g1 := { g0 with isGrounded := checkGrounded scene g0.position size }
      let lvp := g1.lastValidPosition.getD g1.position
      let oldPos := g1.position
      let r := resolveCollision scene g1.position lvp size g1.isGrounded
      let g2 := { g1 with position := r.2 }
      let g3 :=
        if r.1 then
          match g2.physics with
          | some p =>
              { g2 with physics := some { p with velocity :=
                  ⟨if r.2.x ≠ oldPos.x then 0 else p.velocity.x,
                   if r.2.y ≠ oldPos.y then 0 else p.velocity.y,
                   if r.2.z ≠ oldPos.z then 0 else p.velocity.z⟩ } }
          | none => g2
        else g2
      let g4 := { g3 with lastValidPosition := some r.2 }
      groundSnap scene size g4

/-- One entity's slice of a tick of `Scene.update`: `onUpdate` hook, then
the physics phase, then the collider phase, then `onLateUpdate`.  A hook
error is not caught anywhere in the source loop, so it aborts the rest of
this entity's tick (first component `true`). -/
def tickEntity (scene : Scene) (hooks : Hooks) (delta : ℚ) (g : GameObject) :
    Bool × GameObject :=
  let r1 := runHook hooks.onUpdate g
  if r1.1 then (true, r1.2)
  else
    let g3 := colliderStep scene (physicsStep r1.2 delta)
    runHook hooks.onLateUpdate g3

/-- The entity loop of `Scene.update`: entities are processed in order; an
uncaught hook error propagates out of `update`, so the remaining entities
keep their pre-tick state for this tick (first component reports the
escaped error). -/
def updateLoop (scene : Scene) (delta : ℚ) :
    List (Hooks × GameObject) → Bool × List GameObject
  | [] => (false, [])
  | (hk, g) :: rest =>
      let r := tickEntity scene hk delta g
      if r.1 then (true, r.2 :: rest.map Prod.snd)
      else
        let rr := updateLoop scene delta rest
        (rr.1, r.2 :: rr.2)

/-- The position produced by the resolution step of the collider phase when
it runs on game object `g`: resolve from the stored `lastValidPosition`
(defaulting to the current position on the first tick) with `excludeGround`
equal to the fresh grounded sample at `g.position`. -/
def tickResolvedPosition (scene : Scene) (size : Vec3) (g : GameObject) :
    Vec3 :=
  (resolveCollision scene g.position (g.lastValidPosition.getD g.position)
    size (checkGrounded scene g.position size)).2

/-- Modelled from the claim's words for C1: a tick in which the grounded
flag is computed by `checkGrounded` at the pre-integration position, and
that single sample determines both the `applyGravity` argument of
`updatePosition` (gravity applies iff not grounded) and the `excludeGround`
flag of the subsequent resolve.  Entities lacking physics or collider are
outside the claim's scope and follow the source tick. -/
def tickClaimedC1 (scene : Scene) (hooks : Hooks) (delta : ℚ)
    (g : GameObject) : Bool × GameObject :=
  let r1 := runHook hooks.onUpdate g
  if r1.1 then (true, r1.2)
  else
    let g1 := r1.2
    match g1.physics, g1.collider with
    | some p, some size =>
        let grounded := checkGrounded scene g1.position size
        let r := updatePosition p g1.position delta (!grounded)
        let g2 : GameObject :=
          { g1 with physics := some r.1, position := r.2, isGrounded := grounded }
        let lvp := g2.lastValidPosition.getD g2.position
        let oldPos := g2.position
        let rr := resolveCollision scene g2.position lvp size grounded
        let g3 : GameObject := { g2 with position := rr.2 }
        let g4 :=
          if rr.1 then
            match g3.physics with
            | some p2 =>
                { g3 with physics := some { p2 with velocity :=
                    ⟨if rr.2.x ≠ oldPos.x then 0 else p2.velocity.x,
                     if rr.2.y ≠ oldPos.y then 0 else p2.velocity.y,
                     if rr.2.z ≠ oldPos.z then 0 else p2.velocity.z⟩ } }
            | none => g3
          else g3
        let g5 := { g4 with lastValidPosition := some rr.2 }
        runHook hooks.onLateUpdate (groundSnap scene size g5)
    | _, _ =>
        runHook hooks.onLateUpdate (colliderStep scene (physicsStep g1 delta))

/-- Modelled from the amended claim for C1: integration runs first, with
gravity gated only by the grounded flag already stored on the entity (set
by the previous tick's collider phase or by a script); the grounded flag is
then recomputed by `checkGrounded` at the integrated, pre-resolution
position, and that fresh sample is stored on the entity and passed as the
`excludeGround` flag of the resolve.  Entities lacking physics or collider
follow the source tick. -/
def tickAmendedC1 (scene : Scene) (hooks : Hooks) (delta : ℚ)
    (g : GameObject) : Bool × GameObject :=
  let r1 := runHook hooks.onUpdate g
  if r1.1 then (true, r1.2)
  else
    let g1 := r1.2
    match g1.physics, g1.collider with
    | some p, some size =>
        let r := updatePosition p g1.position delta (!g1.isGrounded)
        let gI : GameObject := { g1 with physics := some r.1, position := r.2 }
        let grounded := checkGrounded scene gI.position size
        let gG : GameObject := { gI with isGrounded := grounded }
        let lvp := gG.lastValidPosition.getD gG.position
        let oldPos := gG.position
        let rr := resolveCollision scene gG.position lvp size grounded
        let g2 : GameObject := { gG with position := rr.2 }
        let g3 :=
          if rr.1 then
            match g2.physics with
            | some p2 =>
                { g2 with physics := some { p2 with velocity :=
                    ⟨if rr.2.x ≠ oldPos.x then 0 else p2.velocity.x,
                     if rr.2.y ≠ oldPos.y then 0 else p2.velocity.y,
                     if rr.2.z ≠ oldPos.z then 0 else p2.velocity.z⟩ } }
            | none => g2
          else g2
        let g4 := { g3 with lastValidPosition := some rr.2 }
        runHook hooks.onLateUpdate (groundSnap scene size g4)
    | _, _ =>
        runHook hooks.onLateUpdate (colliderStep scene (physicsStep g1 delta))

/-- Modelled from the claim's words for C4: a per-entity tick in which a
hook failure is confined to that hook invocation — the rest of the
entity's tick and all following entities still run. -/
def tickEntityIsolated (scene : Scene) (hooks : Hooks) (delta : ℚ)
    (g : GameObject) : GameObject :=
  let g1 := (runHook hooks.onUpdate g).2
  let g3 := colliderStep scene (physicsStep g1 delta)
  (runHook hooks.onLateUpdate g3).2

/-- Modelled from the claim's words for C4: the loop that isolates hook
failures and always processes every entity of the tick. -/
def updateLoopClaimed (scene : Scene) (delta : ℚ)
    (objs : List (Hooks × GameObject)) : List GameObject :=
  objs.map (fun e => tickEntityIsolated scene e.1 delta e.2)

/-- Scene used by the loop examples: a 10-grid with one ground block at
cell (5, 0, 5) — the column over the world origin, surface at height 1 —
and no world bounds. -/
def sceneFlat : Scene :=
  ⟨⟨10, 1, [((5, 0, 5), 1)]⟩, none⟩

/-- Physics state for the C1 example: gravity −20, at rest. -/
def pC1 : PhysicsState := ⟨⟨0, 0, 0⟩, 3, 15, 8, -20, -20⟩

/-- Game object for the C1 counterexample: standing at height 1.55 over
the surface at 1 (feet at 1.15, within the 0.2 grounded tolerance but
outside the 0.1 snap tolerance), with the stored grounded flag still
false. -/
def gC1 : GameObject := ⟨⟨0, 31/20, 0⟩, some pC1, some ⟨4/5, 4/5, 4/5⟩, false, none⟩

/-- A hook that always throws. -/
def failingHook : HookFn := fun _ => Except.error ()

/-- Scriptless, physicsless object for the C4 example. -/
def gA : GameObject := ⟨⟨0, 0, 0⟩, none, none, false, none⟩

/-- Physics for the second C4 object: unit X velocity, no gravity. -/
def pB : PhysicsState := ⟨⟨1, 0, 0⟩, 3, 15, 8, 0, -20⟩

/-- Second C4 object: moves along X when its tick runs. -/
def gB : GameObject := ⟨⟨0, 0, 0⟩, some pB, none, false, none⟩

/-- Entity list for the C4 example: the first entity's onUpdate hook
throws; the second has no script. -/
def exObjs : List (Hooks × GameObject) :=
  [(⟨some failingHook, none⟩, gA), (noHooks, gB)]

/-- Physics for the C6 snap scenario: falling with velocity.y = −1. -/
def pSnap : PhysicsState := ⟨⟨0, -1, 0⟩, 3, 15, 8, -20, -20⟩

/-- Object for the C6 snap scenario: extents.y = 1, position.y = 1.55,
ground surface at 1, so targetY = 1.5 and the distance 0.05 is inside the
0.1 snap threshold. -/
def gSnap : GameObject :=
  ⟨⟨0, 31/20, 0⟩, some pSnap, some ⟨4/5, 1, 4/5⟩, false, none⟩

/-- Real-valued 3-vector for the friction analysis: `applyForce` divides by
the speed `sqrt(vx² + vz²)`, so this part of the embedding lives over the
reals. -/
structure RVec3 where
  x : ℝ
  y : ℝ
  z : ℝ

/-- Real-valued state of `VelocityPhysics` (`src/physics.js`). -/
structure RPhysics where
  velocity : RVec3
  maxSpeed : ℝ
  acceleration : ℝ
  friction : ℝ
  gravity : ℝ
  maxFallSpeed : ℝ

/-- Horizontal speed (`VelocityPhysics.getSpeed`). -/
noncomputable def getSpeed (p : RPhysics) : ℝ :=
  Real.sqrt (p.velocity.x ^ 2 + p.velocity.z ^ 2)

/-- `VelocityPhysics.applyFriction`: above the 0.01 speed epsilon, scale
both horizontal components by `max 0 ((speed - friction*delta) / speed)`;
at or below the epsilon, zero them outright. -/
noncomputable def applyFriction (p : RPhysics) (delta : ℝ) : RPhysics :=
  let currentSpeed := Real.sqrt (p.velocity.x ^ 2 + p.velocity.z ^ 2)
  if currentSpeed > 0.01 then
    let frictionAmount := p.friction * delta
    let frac := max 0 ((currentSpeed - frictionAmount) / currentSpeed)
    { p with velocity :=
        { p.velocity with x := p.velocity.x * frac, z := p.velocity.z * frac } }
  else
    { p with velocity := { p.velocity with x := 0, z := 0 } }

/-- `VelocityPhysics.clampSpeed`: uniformly rescale the horizontal velocity
down to `maxSpeed` when it exceeds it. -/
noncomputable def clampSpeed (p : RPhysics) : RPhysics :=
  let currentSpeed := Real.sqrt (p.velocity.x ^ 2 + p.velocity.z ^ 2)
  if currentSpeed > p.maxSpeed then
    { p with velocity :=
        { p.velocity with
          x := p.velocity.x / currentSpeed * p.maxSpeed,
          z := p.velocity.z / currentSpeed * p.maxSpeed } }
  else p

/-- `VelocityPhysics.applyForce`: a nonzero force direction is normalized
and accelerates the horizontal velocity; a zero direction applies friction
instead; either way the horizontal speed is then clamped. -/
noncomputable def applyForce (p : RPhysics) (forceX forceZ delta : ℝ) :
    RPhysics :=
  let p1 :=
    if forceX ≠ 0 ∨ forceZ ≠ 0 then
      let len := Real.sqrt (forceX ^ 2 + forceZ ^ 2)
      let fx := if len > 0 then forceX / len else forceX
      let fz := if len > 0 then forceZ / len else forceZ
      { p with velocity :=
          { p.velocity with
            x := p.velocity.x + fx * p.acceleration * delta,
            z := p.velocity.z + fz * p.acceleration * delta } }
    else applyFriction p delta
  clampSpeed p1

/-- Concrete physics state for the C7 witness: the player configuration
(maxSpeed 3, acceleration 15, friction 8) moving along X at unit speed. -/
noncomputable def pRun : RPhysics := ⟨⟨1, 0, 0⟩, 3, 15, 8, 0, -20⟩

/-! Helper lemmas about the occupancy store. -/

theorem cellsSet_any_self (l : List CellEntry) (k : CellKey) (v : ℕ) :
    (cellsSet l k v).any (fun e => decide (e.1 = k)) = true := by
  induction l with
  | nil => simp [cellsSet]
  | cons e rest ih =>
      by_cases h : e.1 = k
      · simp [cellsSet, h]
      · simp [cellsSet, h, ih]

theorem cellsSet_find_self (l : List CellEntry) (k : CellKey) (v : ℕ) :
    (cellsSet l k v).find? (fun e => decide (e.1 = k)) = some (k, v) := by
  induction l with
  | nil => simp [cellsSet]
  | cons e rest ih =>
      by_cases h : e.1 = k
      · simp [cellsSet, h]
      · simp [cellsSet, h, List.find?, ih]

theorem filter_ne_any_self (l : List CellEntry) (k : CellKey) :
    (l.filter (fun e => !decide (e.1 = k))).any (fun e => decide (e.1 = k))
      = false := by
  induction l with
  | nil => simp
  | cons e rest ih =>
      by_cases h : e.1 = k
      · simp [h, ih]
      · simp [h, ih]

theorem cellKeys_cellsSet (l : List CellEntry) (k : CellKey) (v : ℕ) :
    cellKeys (cellsSet l k v)
      = if l.any (fun e => decide (e.1 = k)) then cellKeys l
        else cellKeys l ++ [k] := by
  induction l with
  | nil => simp [cellsSet, cellKeys]
  | cons e rest ih =>
      by_cases h : e.1 = k
      · simp [cellsSet, cellKeys, h]
      · have h1 : cellsSet (e :: rest) k v = e :: cellsSet rest k v := by
          simp [cellsSet, h]
        have h3 : (e :: rest).any (fun x => decide (x.1 = k))
            = rest.any (fun x => decide (x.1 = k)) := by
          simp [h]
        rw [h1, show cellKeys (e :: cellsSet rest k v)
              = e.1 :: cellKeys (cellsSet rest k v) from rfl, ih, h3,
          show cellKeys (e :: rest) = e.1 :: cellKeys rest from rfl]
        split <;> simp

theorem cellsSet_keys_nodup (l : List CellEntry) (k : CellKey) (v : ℕ)
    (hl : (cellKeys l).Nodup) : (cellKeys (cellsSet l k v)).Nodup := by
  rw [cellKeys_cellsSet]
  by_cases h : l.any (fun e => decide (e.1 = k)) = true
  · rw [if_pos h]; exact hl
  · rw [if_neg h]
    have hk : k ∉ cellKeys l := by
      intro hmem
      rcases List.mem_map.mp hmem with ⟨e, he, hek⟩
      have : l.any (fun e => decide (e.1 = k)) = true :=
        List.any_eq_true.mpr ⟨e, he, by simp [hek]⟩
      exact h this
    refine List.Nodup.append hl (List.nodup_singleton k) ?_
    intro a ha hb
    simp only [List.mem_singleton] at hb
    subst hb
    exact hk ha

/-! ## Claim C8: grid/world round trip -/

/-- C8: for every integer grid triple within grid bounds, `worldToGrid`
applied to the world coordinates produced by `gridToWorld` recovers exactly
the original triple.  The bounds hypothesis mirrors the claim's scope; the
`cellSize ≠ 0` hypothesis is guaranteed by the constructor
(`options.cellSize || 1` never yields 0). -/
theorem grid_roundTrip (g : Grid) (gx gy gz : ℤ)
    (hcs : g.cellSize ≠ 0) (hb : g.isInBounds gx gy gz = true) :
    g.worldToGrid (g.gridToWorld gx gy gz).x (g.gridToWorld gx gy gz).y
      (g.gridToWorld gx gy gz).z = (gx, gy, gz) := by
  unfold Grid.worldToGrid Grid.gridToWorld
  have hx : ((gx : ℚ) - (g.centerOffset : ℚ)) = ((gx - (g.centerOffset : ℤ) : ℤ) : ℚ) := by
    push_cast; ring
  have hz : ((gz : ℚ) - (g.centerOffset : ℚ)) = ((gz - (g.centerOffset : ℤ) : ℤ) : ℚ) := by
    push_cast; ring
  simp only [mul_div_cancel_right₀ _ hcs, hx, hz, round_intCast]
  refine Prod.ext ?_ (Prod.ext ?_ ?_) <;> simp

/-- Witness for C8 at the default 10-grid and the in-bounds triple
(3, 2, 4). -/
theorem grid_roundTrip_witness :
    ((Grid.mk 10 1 []).cellSize ≠ 0
      ∧ (Grid.mk 10 1 []).isInBounds 3 2 4 = true)
    ∧ (Grid.mk 10 1 []).worldToGrid
        ((Grid.mk 10 1 []).gridToWorld 3 2 4).x
        ((Grid.mk 10 1 []).gridToWorld 3 2 4).y
        ((Grid.mk 10 1 []).gridToWorld 3 2 4).z = (3, 2, 4) :=
  ⟨⟨by decide, by decide⟩, grid_roundTrip (Grid.mk 10 1 []) 3 2 4 (by decide) (by decide)⟩

/-! ## Claim C9: occupancy after placement and clearing -/

/-- C9 counterexample: a placement with `trackInGrid = false` (the engine
uses this for every scripted game object) succeeds — `placeBlock` returns a
block — yet the cell remains unoccupied, refuting the claim that
`isOccupied` is true immediately after every successful in-bounds
placement. -/
theorem place_untracked_not_occupied :
    ((Grid.mk 10 1 []).placeBlock 7 3 0 4 false).1.isSome = true
    ∧ ((Grid.mk 10 1 []).placeBlock 7 3 0 4 false).2.isOccupied 3 0 4 = false := by
  constructor <;> decide

/-- C9 (amended): for a tracked placement (`trackInGrid` not `false`, the
default) at an in-bounds cell, `placeBlock` succeeds, `isOccupied` is true
immediately afterwards, and `isOccupied` is false immediately after
`clearCell` on the same cell. -/
theorem place_occupied_clear_empty (g : Grid) (blockId : ℕ) (gx gy gz : ℤ)
    (hb : g.isInBounds gx gy gz = true) :
    (g.placeBlock blockId gx gy gz true).1.isSome = true
    ∧ (g.placeBlock blockId gx gy gz true).2.isOccupied gx gy gz = true
    ∧ (((g.placeBlock blockId gx gy gz true).2.clearCell gx gy gz).isOccupied
        gx gy gz) = false := by
  refine ⟨?_, ?_, ?_⟩
  · simp [Grid.placeBlock, hb]
  · simp [Grid.placeBlock, hb, Grid.isOccupied, Grid.setCell, cellsSet_any_self]
  · simp [Grid.placeBlock, hb, Grid.isOccupied, Grid.setCell, Grid.clearCell,
      filter_ne_any_self]

/-- Witness for the amended C9 at a concrete grid and cell. -/
theorem place_occupied_clear_empty_witness :
    (Grid.mk 10 1 []).isInBounds 2 1 5 = true
    ∧ (((Grid.mk 10 1 []).placeBlock 9 2 1 5 true).1.isSome = true
      ∧ ((Grid.mk 10 1 []).placeBlock 9 2 1 5 true).2.isOccupied 2 1 5 = true
      ∧ ((((Grid.mk 10 1 []).placeBlock 9 2 1 5 true).2.clearCell 2 1 5).isOccupied
          2 1 5) = false) :=
  ⟨by decide, place_occupied_clear_empty (Grid.mk 10 1 []) 9 2 1 5 (by decide)⟩

/-! ## Claim C10: silent replacement of an occupant -/

/-- C10: an in-bounds tracked placement into an already occupied cell
succeeds with no failure result (the only diagnostic path of `placeBlock`
is its out-of-bounds branch, which is not taken), silently replaces the
stored occupant — `getCell` afterwards returns the new block id, so a
distinct previous occupant is no longer retrievable — and preserves the
at-most-one-occupant invariant (no duplicate keys in the store). -/
theorem place_over_occupied (g : Grid) (newId oldId : ℕ) (gx gy gz : ℤ)
    (hb : g.isInBounds gx gy gz = true)
    (hocc : g.getCell gx gy gz = some oldId)
    (hne : newId ≠ oldId)
    (hwf : (cellKeys g.cells).Nodup) :
    (g.placeBlock newId gx gy gz true).1.isSome = true
    ∧ (g.placeBlock newId gx gy gz true).2.getCell gx gy gz = some newId
    ∧ (g.placeBlock newId gx gy gz true).2.getCell gx gy gz ≠ some oldId
    ∧ (cellKeys (g.placeBlock newId gx gy gz true).2.cells).Nodup := by
  have hget : (g.placeBlock newId gx gy gz true).2.getCell gx gy gz = some newId := by
    simp [Grid.placeBlock, hb, Grid.getCell, Grid.setCell, cellsSet_find_self]
  refine ⟨by simp [Grid.placeBlock, hb], hget, ?_, ?_⟩
  · rw [hget]
    simp [hne]
  · simp only [Grid.placeBlock, hb, if_true]
    exact cellsSet_keys_nodup g.cells (gx, gy, gz) newId hwf

/-- Witness for C10: placing block id 8 over a cell already holding id 7. -/
theorem place_over_occupied_witness :
    ((Grid.mk 10 1 [((3, 0, 4), 7)]).isInBounds 3 0 4 = true
      ∧ (Grid.mk 10 1 [((3, 0, 4), 7)]).getCell 3 0 4 = some 7
      ∧ (8 : ℕ) ≠ 7
      ∧ (cellKeys (Grid.mk 10 1 [((3, 0, 4), 7)]).cells).Nodup)
    ∧ (((Grid.mk 10 1 [((3, 0, 4), 7)]).placeBlock 8 3 0 4 true).1.isSome = true
      ∧ ((Grid.mk 10 1 [((3, 0, 4), 7)]).placeBlock 8 3 0 4 true).2.getCell 3 0 4
          = some 8
      ∧ ((Grid.mk 10 1 [((3, 0, 4), 7)]).placeBlock 8 3 0 4 true).2.getCell 3 0 4
          ≠ some 7
      ∧ (cellKeys ((Grid.mk 10 1 [((3, 0, 4), 7)]).placeBlock 8 3 0 4 true).2.cells).Nodup) :=
  ⟨⟨by decide, by decide, by decide, by decide⟩,
    place_over_occupied (Grid.mk 10 1 [((3, 0, 4), 7)]) 8 7 3 0 4
      (by decide) (by decide) (by decide) (by decide)⟩

/-! ## Claim C2: the ground scan of getGroundY -/

theorem scanDown_char (occ : ℕ → Bool) (n : ℕ) :
    (scanDown occ n = 0 ∧ ∀ y, y ≤ n → occ y = false)
    ∨ (∃ y, y ≤ n ∧ occ y = true ∧ scanDown occ n = (y : ℤ) + 1
        ∧ ∀ y2, y < y2 → y2 ≤ n → occ y2 = false) := by
  induction n with
  | zero =>
      by_cases h : occ 0 = true
      · refine Or.inr ⟨0, le_refl 0, h, by simp [scanDown, h], ?_⟩
        intro y2 h1 h2
        omega
      · refine Or.inl ⟨by simp [scanDown, h], ?_⟩
        intro y hy
        have : y = 0 := Nat.le_zero.mp hy
        subst this
        exact Bool.not_eq_true _ |>.mp h
  | succ n ih =>
      by_cases h : occ (n + 1) = true
      · refine Or.inr ⟨n + 1, le_refl _, h, ?_, ?_⟩
        · simp only [scanDown, h, if_true]
          push_cast
          ring
        · intro y2 h1 h2
          omega
      · have hs : scanDown occ (n + 1) = scanDown occ n := by
          simp [scanDown, h]
        have hocc : occ (n + 1) = false := Bool.not_eq_true _ |>.mp h
        rcases ih with ⟨h1, h2⟩ | ⟨y, hy, hoy, heq, hafter⟩
        · refine Or.inl ⟨hs.trans h1, ?_⟩
          intro y hy
          rcases Nat.lt_succ_iff_lt_or_eq.mp (Nat.lt_succ_of_le hy) with h3 | h3
          · exact h2 y (Nat.lt_succ_iff.mp h3)
          · exact h3 ▸ hocc
        · refine Or.inr ⟨y, hy.trans (Nat.le_succ n), hoy, hs.trans heq, ?_⟩
          intro y2 hgt hle
          rcases Nat.lt_succ_iff_lt_or_eq.mp (Nat.lt_succ_of_le hle) with h3 | h3
          · exact hafter y2 hgt (Nat.lt_succ_iff.mp h3)
          · exact h3 ▸ hocc

/-- C2 counterexample: in `overhangScene` (only block at cell (5, 5, 5))
with the entity at world position (0, 2, 0), the source function scans
downward from `max(floor(2), 10) = 10`, hits the cell at y = 5 — above the
entity — and returns 6, whereas the claimed scan from `min(floor(2), 10) =
2` finds no occupied cell in `[0, 2]` and must return 0. -/
theorem groundY_min_scan_false :
    getGroundY overhangScene ⟨0, 2, 0⟩ = 6
    ∧ getGroundYClaimMin overhangScene ⟨0, 2, 0⟩ = 0 := by
  constructor
  · norm_num [getGroundY, groundColumnX, groundColumnZ, overhangScene,
      Grid.centerOffset]
    decide
  · norm_num [getGroundYClaimMin, groundColumnX, groundColumnZ, overhangScene,
      Grid.centerOffset]
    decide

/-- C2 (amended): `getGroundY` scans the entity's X/Z grid column downward
in Y starting from `max(floor(position.y), 10)` (not `min`) down to 0,
returns `cellY + 1` for the first occupied cell it finds — equivalently the
highest occupied cell in that range — and returns 0 when no cell in the
range is occupied. -/
theorem getGroundY_scan_char (scene : Scene) (position : Vec3) :
    (getGroundY scene position = 0
      ∧ ∀ y : ℕ, y ≤ (max ⌊position.y⌋ 10).toNat →
          scene.grid.isOccupied (groundColumnX scene position) (y : ℤ)
            (groundColumnZ scene position) = false)
    ∨ (∃ y : ℕ, y ≤ (max ⌊position.y⌋ 10).toNat
        ∧ scene.grid.isOccupied (groundColumnX scene position) (y : ℤ)
            (groundColumnZ scene position) = true
        ∧ getGroundY scene position = (y : ℚ) + 1
        ∧ ∀ y2 : ℕ, y < y2 → y2 ≤ (max ⌊position.y⌋ 10).toNat →
            scene.grid.isOccupied (groundColumnX scene position) (y2 : ℤ)
              (groundColumnZ scene position) = false) := by
  rcases scanDown_char
      (fun y => scene.grid.isOccupied (groundColumnX scene position) (y : ℤ)
        (groundColumnZ scene position))
      (max ⌊position.y⌋ 10).toNat with ⟨h1, h2⟩ | ⟨y, hy, hoy, heq, hafter⟩
  · refine Or.inl ⟨?_, h2⟩
    unfold getGroundY
    exact_mod_cast congrArg (fun n : ℤ => (n : ℚ)) h1
  · refine Or.inr ⟨y, hy, hoy, ?_, hafter⟩
    unfold getGroundY
    rw [heq]
    push_cast
    ring

/-! ## Claim C5: wall sliding -/

theorem checkOutOfBounds_y_irrel (scene : Scene) (size : Vec3)
    (x z y1 y2 : ℚ) :
    checkOutOfBounds scene ⟨x, y1, z⟩ size
      = checkOutOfBounds scene ⟨x, y2, z⟩ size := by
  cases h : scene.gridBounds <;> simp [checkOutOfBounds, h]

/-- C5: when the tentative (diagonal) move collides, the X-only candidate
(`lastPosition` with the tentative X) also collides, the Z-only candidate
does not, and the axis-resolved position is inside the world bounds, then
`resolve` reverts `position.x` to `lastPosition.x` and keeps the tentative
`position.z` (sliding along the wall). -/
theorem resolve_slide (scene : Scene) (pos lastPos size : Vec3) (eg : Bool)
    (h0 : checkCollision scene pos size eg = true)
    (hx : checkCollision scene ⟨pos.x, lastPos.y, lastPos.z⟩ size eg = true)
    (hz : checkCollision scene ⟨lastPos.x, lastPos.y, pos.z⟩ size eg = false)
    (hb : checkOutOfBounds scene ⟨lastPos.x, pos.y, pos.z⟩ size = false) :
    (resolveCollision scene pos lastPos size eg).2.x = lastPos.x
    ∧ (resolveCollision scene pos lastPos size eg).2.z = pos.z := by
  have hb2 : checkOutOfBounds scene
      (⟨lastPos.x,
        if checkCollision scene ⟨lastPos.x, pos.y, lastPos.z⟩ size eg
          then lastPos.y else pos.y, pos.z⟩ : Vec3) size = false :=
    (checkOutOfBounds_y_irrel scene size lastPos.x pos.z _ pos.y).trans hb
  simp [resolveCollision, h0, hx, hz, hb2]

/-- Witness for C5: in `wallScene` an entity with the default 0.8 collider
moving diagonally from (1, 0.5, 0) to (1.4, 0.5, 0.3) into the wall at
world X ∈ [1.5, 2.5] slides: X reverts to 1, Z keeps 0.3. -/
theorem resolve_slide_witness :
    (checkCollision wallScene ⟨7/5, 1/2, 3/10⟩ ⟨4/5, 4/5, 4/5⟩ false = true
      ∧ checkCollision wallScene ⟨7/5, 1/2, 0⟩ ⟨4/5, 4/5, 4/5⟩ false = true
      ∧ checkCollision wallScene ⟨1, 1/2, 3/10⟩ ⟨4/5, 4/5, 4/5⟩ false = false
      ∧ checkOutOfBounds wallScene ⟨1, 1/2, 3/10⟩ ⟨4/5, 4/5, 4/5⟩ = false)
    ∧ ((resolveCollision wallScene ⟨7/5, 1/2, 3/10⟩ ⟨1, 1/2, 0⟩
          ⟨4/5, 4/5, 4/5⟩ false).2.x = 1
      ∧ (resolveCollision wallScene ⟨7/5, 1/2, 3/10⟩ ⟨1, 1/2, 0⟩
          ⟨4/5, 4/5, 4/5⟩ false).2.z = 3/10) :=
  by
    have h0 : checkCollision wallScene ⟨7/5, 1/2, 3/10⟩ ⟨4/5, 4/5, 4/5⟩ false
        = true := by
      norm_num [checkCollision, wallScene, Grid.centerOffset, intRange,
        Grid.isOccupied, List.range_succ]
      decide
    have hx : checkCollision wallScene ⟨7/5, 1/2, 0⟩ ⟨4/5, 4/5, 4/5⟩ false
        = true := by
      norm_num [checkCollision, wallScene, Grid.centerOffset, intRange,
        Grid.isOccupied, List.range_succ]
      decide
    have hz : checkCollision wallScene ⟨1, 1/2, 3/10⟩ ⟨4/5, 4/5, 4/5⟩ false
        = false := by
      norm_num [checkCollision, wallScene, Grid.centerOffset, intRange,
        Grid.isOccupied, List.range_succ]
    have hbnd : checkOutOfBounds wallScene ⟨1, 1/2, 3/10⟩ ⟨4/5, 4/5, 4/5⟩
        = false := by
      norm_num [checkOutOfBounds, wallScene]
    exact ⟨⟨h0, hx, hz, hbnd⟩,
      resolve_slide wallScene ⟨7/5, 1/2, 3/10⟩ ⟨1, 1/2, 0⟩ ⟨4/5, 4/5, 4/5⟩ false
        h0 hx hz hbnd⟩

/-! ## Claim C10 counterexample (untracked placement over an occupant) -/

/-- C10 counterexample: an untracked (`trackInGrid = false`) in-bounds
placement into an occupied cell also succeeds without a failure result,
but does not replace the occupant — `getCell` still returns the old block
id, contradicting the claim's unrestricted "silently replaces". -/
theorem place_untracked_keeps_old :
    ((Grid.mk 10 1 [((3, 0, 4), 7)]).placeBlock 8 3 0 4 false).1.isSome = true
    ∧ ((Grid.mk 10 1 [((3, 0, 4), 7)]).placeBlock 8 3 0 4 false).2.getCell 3 0 4
        = some 7 := by
  constructor <;> decide

/-! ## Claim C3: lastValidPosition is the resolved position -/

theorem runHook_lastValid (h : Option HookFn) (g : GameObject) :
    (runHook h g).2.lastValidPosition = g.lastValidPosition := by
  cases h with
  | none => rfl
  | some f =>
      cases hf : f g with
      | ok e => simp [runHook, hf, applyEffect]
      | error e2 => simp [runHook, hf]

theorem physicsStep_collider (g : GameObject) (delta : ℚ) :
    (physicsStep g delta).collider = g.collider := by
  cases hp : g.physics <;> simp [physicsStep, hp]

theorem groundSnap_lastValid (scene : Scene) (size : Vec3) (g : GameObject) :
    (groundSnap scene size g).lastValidPosition = g.lastValidPosition := by
  cases hp : g.physics with
  | none => simp [groundSnap, hp]
  | some p =>
      simp only [groundSnap, hp]
      split_ifs <;> rfl

/-- C3: whenever a tick's hook phase succeeds and the entity has a
collider, the `lastValidPosition` stored from the collider phase onward —
through the snap and the late hook, i.e. at every point after the
collision-resolution step — is exactly the resolved position produced by
that tick's resolve (`tickResolvedPosition` of the post-integration
state), never the raw pre-resolution position.  At the start of the next
tick this is precisely the previous tick's post-resolution position. -/
theorem lastValid_is_resolved (scene : Scene) (hooks : Hooks) (delta : ℚ)
    (g g1 : GameObject) (size : Vec3)
    (h1 : runHook hooks.onUpdate g = (false, g1))
    (hc : g1.collider = some size) :
    (tickEntity scene hooks delta g).2.lastValidPosition
      = some (tickResolvedPosition scene size (physicsStep g1 delta)) := by
  have hc2 : (physicsStep g1 delta).collider = some size := by
    rw [physicsStep_collider]; exact hc
  simp only [tickEntity, h1, Bool.false_eq_true, if_false]
  rw [runHook_lastValid]
  simp only [colliderStep, hc2]
  rw [groundSnap_lastValid]
  split <;> simp [tickResolvedPosition]

/-- Witness for C3 at a concrete scene, object and tick. -/
theorem lastValid_is_resolved_witness :
    (runHook noHooks.onUpdate gC1 = (false, gC1)
      ∧ gC1.collider = some ⟨4/5, 4/5, 4/5⟩)
    ∧ (tickEntity sceneFlat noHooks (1/100) gC1).2.lastValidPosition
        = some (tickResolvedPosition sceneFlat ⟨4/5, 4/5, 4/5⟩
            (physicsStep gC1 (1/100))) :=
  ⟨⟨rfl, rfl⟩,
    lastValid_is_resolved sceneFlat noHooks (1/100) gC1 gC1 ⟨4/5, 4/5, 4/5⟩
      rfl rfl⟩

/-! ## Claim C4: hook failures and the rest of the tick -/

/-- C4 counterexample: with the first entity's `onUpdate` hook throwing,
the source loop (no try/catch) leaves the second entity unprocessed, while
the claimed isolating loop processes it (moving it by its velocity); the
two loops produce different tick results. -/
theorem hook_error_not_isolated :
    (updateLoop sceneFlat 1 exObjs).2 ≠ updateLoopClaimed sceneFlat 1 exObjs := by
  have hL : (updateLoop sceneFlat 1 exObjs).2 = [gA, gB] := rfl
  have h2 : tickEntityIsolated sceneFlat noHooks 1 gB
      = { gB with position := ⟨1, 0, 0⟩ } := by
    norm_num [tickEntityIsolated, runHook, noHooks, physicsStep, colliderStep,
      gB, pB, updatePosition]
  have hR : updateLoopClaimed sceneFlat 1 exObjs
      = [gA, { gB with position := ⟨1, 0, 0⟩ }] := by
    simp only [updateLoopClaimed, exObjs, List.map]
    rw [h2]
    rfl
  rw [hL, hR]
  intro h
  simp only [List.cons.injEq] at h
  have h4 := congrArg (fun o : GameObject => o.position.x) h.2.1
  norm_num [gB] at h4

/-- C4 (amended): an error escaping a script hook aborts the current tick:
the erroring entity's tick stops where it threw, the loop propagates the
error, and every remaining entity keeps its pre-tick state for this tick
(the enclosing animation frame was already scheduled, so later ticks still
run). -/
theorem hook_error_aborts_tick (scene : Scene) (delta : ℚ) (hk : Hooks)
    (g gErr : GameObject) (rest : List (Hooks × GameObject))
    (h : tickEntity scene hk delta g = (true, gErr)) :
    updateLoop scene delta ((hk, g) :: rest)
      = (true, gErr :: rest.map Prod.snd) := by
  simp [updateLoop, h]

/-- Witness for the amended C4: the first entity's hook throws and the
second entity is returned untouched. -/
theorem hook_error_aborts_tick_witness :
    tickEntity sceneFlat ⟨some failingHook, none⟩ 1 gA = (true, gA)
    ∧ updateLoop sceneFlat 1 ((⟨some failingHook, none⟩, gA) :: [(noHooks, gB)])
        = (true, gA :: [(noHooks, gB)].map Prod.snd) :=
  ⟨rfl,
    hook_error_aborts_tick sceneFlat 1 ⟨some failingHook, none⟩ gA gA
      [(noHooks, gB)] rfl⟩

/-! ## Claim C6: the ground snap -/

/-- C6: after resolution, when the entity has physics with `velocity.y ≤ 0`
and `checkGrounded` holds at the (resolved) position, then with `targetY =
groundSurfaceY + extents.y/2`: if `|position.y − targetY| < 0.1` the snap
sets `position.y = targetY`, zeroes `velocity.y` and forces the grounded
flag; if the distance is at least 0.1 nothing changes.  `groundSnap` is
exactly the snap step the collider phase (`colliderStep`) runs on the
resolved state. -/
theorem ground_snap_threshold (scene : Scene) (size : Vec3) (g : GameObject)
    (p : PhysicsState) (hp : g.physics = some p) (hv : p.velocity.y ≤ 0)
    (hg : checkGrounded scene g.position size = true) :
    (|g.position.y - (getGroundY scene g.position + size.y / 2)| < 0.1 →
        groundSnap scene size g
          = { g with
              position := ⟨g.position.x,
                getGroundY scene g.position + size.y / 2, g.position.z⟩,
              physics := some { p with velocity := ⟨p.velocity.x, 0, p.velocity.z⟩ },
              isGrounded := true })
    ∧ (¬ |g.position.y - (getGroundY scene g.position + size.y / 2)| < 0.1 →
        groundSnap scene size g = g) := by
  constructor <;> intro h <;> simp [groundSnap, hp, hv, hg, h]

/-- Witness for C6: the spec scenario — falling at −1, ground surface 1,
extents.y 1, entering at height 1.55; the distance 0.05 to targetY = 1.5
is inside the snap threshold, so the snap fires. -/
theorem ground_snap_threshold_witness :
    (gSnap.physics = some pSnap ∧ pSnap.velocity.y ≤ 0
      ∧ checkGrounded sceneFlat gSnap.position ⟨4/5, 1, 4/5⟩ = true
      ∧ |gSnap.position.y
          - (getGroundY sceneFlat gSnap.position + (Vec3.mk (4/5) 1 (4/5)).y / 2)|
          < 0.1)
    ∧ groundSnap sceneFlat ⟨4/5, 1, 4/5⟩ gSnap
        = { gSnap with
            position := ⟨gSnap.position.x,
              getGroundY sceneFlat gSnap.position + (Vec3.mk (4/5) 1 (4/5)).y / 2,
              gSnap.position.z⟩,
            physics := some { pSnap with
              velocity := ⟨pSnap.velocity.x, 0, pSnap.velocity.z⟩ },
            isGrounded := true } := by
  have hgy : getGroundY sceneFlat ⟨0, 31/20, 0⟩ = 1 := by
    norm_num [getGroundY, groundColumnX, groundColumnZ, sceneFlat,
      Grid.centerOffset]
    decide
  have hg : checkGrounded sceneFlat gSnap.position ⟨4/5, 1, 4/5⟩ = true := by
    simp only [checkGrounded, gSnap, decide_eq_true_eq]
    rw [hgy]
    rw [abs_lt]
    constructor <;> norm_num
  have hd : |gSnap.position.y
      - (getGroundY sceneFlat gSnap.position + (Vec3.mk (4/5) 1 (4/5)).y / 2)|
      < 0.1 := by
    simp only [gSnap]
    rw [hgy]
    rw [abs_lt]
    constructor <;> norm_num
  exact ⟨⟨rfl, by norm_num [pSnap], hg, hd⟩,
    (ground_snap_threshold sceneFlat ⟨4/5, 1, 4/5⟩ gSnap pSnap rfl
      (by norm_num [pSnap]) hg).1 hd⟩

/-! ## Claim C1: the order of grounding, integration and resolution -/

/-- C1 counterexample: standing on the ground at height 1.55 with the
stored grounded flag still false, the source tick applies gravity this
tick (the fresh grounded sample is taken only after integration), ending
at height 1.548, while the claimed tick (sample at the pre-integration
position gating gravity) would leave the entity at 1.55 — the two ticks
produce different positions. -/
theorem tick_pre_integration_sample_false :
    (tickEntity sceneFlat noHooks (1/100) gC1).2.position.y
      ≠ (tickClaimedC1 sceneFlat noHooks (1/100) gC1).2.position.y := by
  have hgyPre : getGroundY sceneFlat ⟨0, 31/20, 0⟩ = 1 := by
    norm_num [getGroundY, groundColumnX, groundColumnZ, sceneFlat,
      Grid.centerOffset]
    decide
  have hgPre : checkGrounded sceneFlat ⟨0, 31/20, 0⟩ ⟨4/5, 4/5, 4/5⟩ = true := by
    simp only [checkGrounded, decide_eq_true_eq]
    rw [hgyPre, abs_lt]
    constructor <;> norm_num
  have hgyPost : getGroundY sceneFlat ⟨0, 387/250, 0⟩ = 1 := by
    norm_num [getGroundY, groundColumnX, groundColumnZ, sceneFlat,
      Grid.centerOffset]
    decide
  have hgPost : checkGrounded sceneFlat ⟨0, 387/250, 0⟩ ⟨4/5, 4/5, 4/5⟩ = true := by
    simp only [checkGrounded, decide_eq_true_eq]
    rw [hgyPost, abs_lt]
    constructor <;> norm_num
  have hob : ∀ p s : Vec3, checkOutOfBounds sceneFlat p s = false :=
    fun p s => rfl
  have hccPost : checkCollision sceneFlat ⟨0, 387/250, 0⟩ ⟨4/5, 4/5, 4/5⟩ true
      = false := by
    norm_num [checkCollision, sceneFlat, Grid.centerOffset, intRange,
      Grid.isOccupied, List.range_succ]
  have hresPost : resolveCollision sceneFlat ⟨0, 387/250, 0⟩ ⟨0, 387/250, 0⟩
      ⟨4/5, 4/5, 4/5⟩ true = (false, ⟨0, 387/250, 0⟩) := by
    simp [resolveCollision, hccPost, hob]
  have hccPre : checkCollision sceneFlat ⟨0, 31/20, 0⟩ ⟨4/5, 4/5, 4/5⟩ true
      = false := by
    norm_num [checkCollision, sceneFlat, Grid.centerOffset, intRange,
      Grid.isOccupied, List.range_succ]
  have hresPre : resolveCollision sceneFlat ⟨0, 31/20, 0⟩ ⟨0, 31/20, 0⟩
      ⟨4/5, 4/5, 4/5⟩ true = (false, ⟨0, 31/20, 0⟩) := by
    simp [resolveCollision, hccPre, hob]
  have hPhys : physicsStep gC1 (1/100)
      = { gC1 with
          physics := some { pC1 with velocity := ⟨0, -(1/5), 0⟩ },
          position := ⟨0, 387/250, 0⟩ } := by
    norm_num [physicsStep, gC1, pC1, updatePosition]
  have hCode : (tickEntity sceneFlat noHooks (1/100) gC1).2.position.y
      = 387/250 := by
    simp only [tickEntity, runHook, noHooks, Bool.false_eq_true, if_false]
    rw [hPhys]
    norm_num [colliderStep, gC1, pC1, hgPost, hresPost, groundSnap, hgyPost,
      abs_lt]
  have hClaim : (tickClaimedC1 sceneFlat noHooks (1/100) gC1).2.position.y
      = 31/20 := by
    simp only [tickClaimedC1, runHook, noHooks, Bool.false_eq_true, if_false]
    norm_num [gC1, pC1, updatePosition, hgPre, hresPre, groundSnap, hgyPre,
      abs_lt]
  rw [hCode, hClaim]
  norm_num

/-- C1 (amended): in the source tick, integration runs first with gravity
gated only by the grounded flag already stored on the entity; the grounded
flag is then recomputed at the integrated (pre-resolution) position and
that fresh sample is both stored and passed as the `excludeGround` flag of
the resolve.  Stated as: the source tick coincides with the
`tickAmendedC1` pipeline written from exactly these words, for every
scene, hook set, delta and entity. -/
theorem tick_grounding_order (scene : Scene) (hooks : Hooks) (delta : ℚ)
    (g : GameObject) :
    tickEntity scene hooks delta g = tickAmendedC1 scene hooks delta g := by
  rcases h1 : runHook hooks.onUpdate g with ⟨e, g1⟩
  simp only [tickEntity, tickAmendedC1, h1]
  cases e with
  | true => simp
  | false =>
      cases hp : g1.physics with
      | none =>
          cases hc : g1.collider <;> simp [hp, hc]
      | some p =>
          cases hc : g1.collider with
          | none => simp [hp, hc]
          | some size => simp [hp, hc, physicsStep, colliderStep]

/-! ## Claim C7: friction decay -/

theorem applyFriction_maxSpeed (p : RPhysics) (delta : ℝ) :
    (applyFriction p delta).maxSpeed = p.maxSpeed := by
  simp only [applyFriction]
  split_ifs <;> rfl

theorem applyFriction_friction (p : RPhysics) (delta : ℝ) :
    (applyFriction p delta).friction = p.friction := by
  simp only [applyFriction]
  split_ifs <;> rfl

theorem clampSpeed_maxSpeed (p : RPhysics) :
    (clampSpeed p).maxSpeed = p.maxSpeed := by
  simp only [clampSpeed]
  split_ifs <;> rfl

theorem clampSpeed_friction (p : RPhysics) :
    (clampSpeed p).friction = p.friction := by
  simp only [clampSpeed]
  split_ifs <;> rfl

theorem applyForce_zero_eq (p : RPhysics) (delta : ℝ) :
    applyForce p 0 0 delta = clampSpeed (applyFriction p delta) := by
  unfold applyForce
  simp

theorem applyFriction_scale (p : RPhysics) (delta : ℝ)
    (hf : 0 ≤ p.friction * delta) :
    ∃ c1 : ℝ, 0 ≤ c1 ∧ c1 ≤ 1
      ∧ (applyFriction p delta).velocity.x = p.velocity.x * c1
      ∧ (applyFriction p delta).velocity.z = p.velocity.z * c1 := by
  by_cases hs : Real.sqrt (p.velocity.x ^ 2 + p.velocity.z ^ 2) > 0.01
  · have hpos : (0 : ℝ) < Real.sqrt (p.velocity.x ^ 2 + p.velocity.z ^ 2) :=
      lt_trans (by norm_num) hs
    refine ⟨max 0 ((Real.sqrt (p.velocity.x ^ 2 + p.velocity.z ^ 2)
        - p.friction * delta) / Real.sqrt (p.velocity.x ^ 2 + p.velocity.z ^ 2)),
      le_max_left _ _, ?_, ?_, ?_⟩
    · apply max_le (by norm_num)
      rw [div_le_one hpos]
      exact sub_le_self _ hf
    · simp [applyFriction, hs]
    · simp [applyFriction, hs]
  · exact ⟨0, le_refl 0, by norm_num, by simp [applyFriction, hs],
      by simp [applyFriction, hs]⟩

theorem clampSpeed_scale (q : RPhysics) (hm : 0 ≤ q.maxSpeed) :
    ∃ c2 : ℝ, 0 ≤ c2 ∧ c2 ≤ 1
      ∧ (clampSpeed q).velocity.x = q.velocity.x * c2
      ∧ (clampSpeed q).velocity.z = q.velocity.z * c2 := by
  by_cases hs : Real.sqrt (q.velocity.x ^ 2 + q.velocity.z ^ 2) > q.maxSpeed
  · have hpos : (0 : ℝ) < Real.sqrt (q.velocity.x ^ 2 + q.velocity.z ^ 2) :=
      lt_of_le_of_lt hm hs
    refine ⟨q.maxSpeed / Real.sqrt (q.velocity.x ^ 2 + q.velocity.z ^ 2),
      div_nonneg hm (Real.sqrt_nonneg _), (div_le_one hpos).mpr hs.le, ?_, ?_⟩
    · simp only [clampSpeed, hs, if_true]
      ring
    · simp only [clampSpeed, hs, if_true]
      ring
  · exact ⟨1, by norm_num, le_refl 1, by simp [clampSpeed, hs],
      by simp [clampSpeed, hs]⟩

theorem applyForce_zero_scale (p : RPhysics) (delta : ℝ)
    (hf : 0 ≤ p.friction * delta) (hm : 0 ≤ p.maxSpeed) :
    ∃ c : ℝ, 0 ≤ c ∧ c ≤ 1
      ∧ (applyForce p 0 0 delta).velocity.x = p.velocity.x * c
      ∧ (applyForce p 0 0 delta).velocity.z = p.velocity.z * c := by
  obtain ⟨c1, hc10, hc11, hx1, hz1⟩ := applyFriction_scale p delta hf
  obtain ⟨c2, hc20, hc21, hx2, hz2⟩ :=
    clampSpeed_scale (applyFriction p delta)
      (by rw [applyFriction_maxSpeed]; exact hm)
  refine ⟨c1 * c2, mul_nonneg hc10 hc20, ?_, ?_, ?_⟩
  · calc c1 * c2 ≤ 1 * c2 := by
          exact mul_le_mul_of_nonneg_right hc11 hc20
      _ = c2 := one_mul c2
      _ ≤ 1 := hc21
  · rw [applyForce_zero_eq, hx2, hx1]
    ring
  · rw [applyForce_zero_eq, hz2, hz1]
    ring

theorem applyForce_zero_step (p : RPhysics) (delta : ℝ)
    (hf : 0 ≤ p.friction * delta) (hm : 0 ≤ p.maxSpeed) :
    getSpeed (applyForce p 0 0 delta) ≤ getSpeed p
    ∧ 0 ≤ p.velocity.x * (applyForce p 0 0 delta).velocity.x
    ∧ 0 ≤ p.velocity.z * (applyForce p 0 0 delta).velocity.z
    ∧ (getSpeed p ≤ 0.01 →
        (applyForce p 0 0 delta).velocity.x = 0
        ∧ (applyForce p 0 0 delta).velocity.z = 0) := by
  obtain ⟨c, hc0, hc1, hx, hz⟩ := applyForce_zero_scale p delta hf hm
  refine ⟨?_, ?_, ?_, ?_⟩
  · unfold getSpeed
    rw [hx, hz]
    have hsq : (p.velocity.x * c) ^ 2 + (p.velocity.z * c) ^ 2
        = c ^ 2 * (p.velocity.x ^ 2 + p.velocity.z ^ 2) := by ring
    rw [hsq, Real.sqrt_mul (sq_nonneg c), Real.sqrt_sq hc0]
    exact mul_le_of_le_one_left (Real.sqrt_nonneg _) hc1
  · rw [hx]
    have hsq : p.velocity.x * (p.velocity.x * c) = c * p.velocity.x ^ 2 := by
      ring
    rw [hsq]
    exact mul_nonneg hc0 (sq_nonneg _)
  · rw [hz]
    have hsq : p.velocity.z * (p.velocity.z * c) = c * p.velocity.z ^ 2 := by
      ring
    rw [hsq]
    exact mul_nonneg hc0 (sq_nonneg _)
  · intro hsmall
    unfold getSpeed at hsmall
    have hfr : applyFriction p delta
        = { p with velocity := { p.velocity with x := 0, z := 0 } } := by
      unfold applyFriction
      rw [if_neg (not_lt.mpr hsmall)]
    rw [applyForce_zero_eq, hfr]
    unfold clampSpeed
    rw [if_neg]
    · exact ⟨rfl, rfl⟩
    · push_neg
      have : Real.sqrt ((0 : ℝ) ^ 2 + (0 : ℝ) ^ 2) = 0 := by
        norm_num
      simpa [this] using hm

/-- C7: with zero input force, each `applyForce(0, 0, dt)` call multiplies
both horizontal velocity components by one common factor in `[0, 1]`;
hence along the iterated sequence the horizontal speed is monotonically
non-increasing (never increases), the sign of neither horizontal component
ever flips, and as soon as the speed is at or below the 0.01 epsilon the
next call makes both components exactly zero.  Friction and maxSpeed are
non-negative for every state built through the documented configuration
surface (defaults 8 and 3). -/
theorem friction_decay (p : RPhysics) (delta : ℝ) (hdt : 0 < delta)
    (hf : 0 ≤ p.friction) (hm : 0 ≤ p.maxSpeed) (n : ℕ) :
    getSpeed ((fun q => applyForce q 0 0 delta)^[n + 1] p)
        ≤ getSpeed ((fun q => applyForce q 0 0 delta)^[n] p)
    ∧ 0 ≤ ((fun q => applyForce q 0 0 delta)^[n] p).velocity.x
          * ((fun q => applyForce q 0 0 delta)^[n + 1] p).velocity.x
    ∧ 0 ≤ ((fun q => applyForce q 0 0 delta)^[n] p).velocity.z
          * ((fun q => applyForce q 0 0 delta)^[n + 1] p).velocity.z
    ∧ (getSpeed ((fun q => applyForce q 0 0 delta)^[n] p) ≤ 0.01 →
        ((fun q => applyForce q 0 0 delta)^[n + 1] p).velocity.x = 0
        ∧ ((fun q => applyForce q 0 0 delta)^[n + 1] p).velocity.z = 0) := by
  have hfields : ∀ m : ℕ,
      ((fun q => applyForce q 0 0 delta)^[m] p).friction = p.friction
      ∧ ((fun q => applyForce q 0 0 delta)^[m] p).maxSpeed = p.maxSpeed := by
    intro m
    induction m with
    | zero => exact ⟨rfl, rfl⟩
    | succ k ih =>
        rw [Function.iterate_succ_apply']
        obtain ⟨ih1, ih2⟩ := ih
        rw [applyForce_zero_eq, clampSpeed_friction, clampSpeed_maxSpeed,
          applyFriction_friction, applyFriction_maxSpeed]
        exact ⟨ih1, ih2⟩
  have h1 := (hfields n).1
  have h2 := (hfields n).2
  rw [Function.iterate_succ_apply']
  exact applyForce_zero_step ((fun q => applyForce q 0 0 delta)^[n] p) delta
    (by rw [h1]; exact mul_nonneg hf hdt.le) (by rw [h2]; exact hm)

/-- Witness for C7 at the player physics configuration and dt = 0.1. -/
theorem friction_decay_witness :
    ((0 : ℝ) < 1/10 ∧ (0 : ℝ) ≤ pRun.friction ∧ (0 : ℝ) ≤ pRun.maxSpeed)
    ∧ (getSpeed ((fun q => applyForce q 0 0 (1/10))^[1] pRun)
          ≤ getSpeed ((fun q => applyForce q 0 0 (1/10))^[0] pRun)
      ∧ 0 ≤ ((fun q => applyForce q 0 0 (1/10))^[0] pRun).velocity.x
            * ((fun q => applyForce q 0 0 (1/10))^[1] pRun).velocity.x
      ∧ 0 ≤ ((fun q => applyForce q 0 0 (1/10))^[0] pRun).velocity.z
            * ((fun q => applyForce q 0 0 (1/10))^[1] pRun).velocity.z
      ∧ (getSpeed ((fun q => applyForce q 0 0 (1/10))^[0] pRun) ≤ 0.01 →
          ((fun q => applyForce q 0 0 (1/10))^[1] pRun).velocity.x = 0
          ∧ ((fun q => applyForce q 0 0 (1/10))^[1] pRun).velocity.z = 0)) :=
  ⟨⟨by norm_num, by norm_num [pRun], by norm_num [pRun]⟩,
    friction_decay pRun (1/10) (by norm_num) (by norm_num [pRun])
      (by norm_num [pRun]) 0⟩

end Kivi
